import Mathlib

/-!
Verification of the Duo 2FA command-gate plugin (src/duo2fa.py).

The development shallowly embeds the plugin's pure logic and its
effectful filter as Lean functions.  Network collaborators (the Slack
`users.info` API, the Duo `preauth` and `auth` endpoints) are modelled
as function-valued parameters of an environment record; the messages
the plugin sends and the network calls it performs are returned
explicitly as a trace.  Python exceptions that can escape the filter
are modelled with an `Except` result.  Python string builtins used by
the source (`in`, `split(" ")`, `join`, `lower`, `startswith`,
`list.index`, `del list[i]`) are embedded as structurally recursive
functions on strings and character lists with the same semantics.
-/

namespace Duo2fa

/-- Kinds of Python exceptions that the embedded code can raise:
`valueError` for `list.index` failing to find its element, and
`typeError` for a method call with a wrong keyword argument. -/
inductive PyErr where
  | valueError
  | typeError
  deriving DecidableEq, Repr

/-- Embedding of Python's substring test `needle in hay` on the
character lists of the two strings: true iff `needle` occurs
contiguously inside `hay`. -/
def substrIn : List Char → List Char → Bool
  | needle, [] => needle.isEmpty
  | needle, a :: t => List.isPrefixOf needle (a :: t) || substrIn needle t

/-- Embedding of Python's `needle in hay` for strings. -/
def strIn (needle hay : String) : Bool :=
  substrIn needle.toList hay.toList

/-- Embedding of Python's `str.split(" ")` on a character list: the
string is cut at every single occurrence of the space character, and
empty pieces are kept (`"".split(" ") == [""]`,
`"a  b".split(" ") == ["a", "", "b"]`). -/
def splitSpace : List Char → List (List Char)
  | [] => [[]]
  | c :: t =>
    if c = ' ' then [] :: splitSpace t
    else
      match splitSpace t with
      | [] => [[c]]
      | w :: ws => (c :: w) :: ws

/-- Embedding of Python's `args.split(" ")`. -/
def pySplit (s : String) : List String :=
  (splitSpace s.toList).map String.mk

/-- Embedding of Python's `sep.join(pieces)`. -/
def pyJoin (sep : String) : List String → String
  | [] => ""
  | [x] => x
  | x :: xs => x ++ sep ++ pyJoin sep xs

/-- Embedding of Python's `str.lower()` (ASCII case folding, which is
all the source feeds it). -/
def pyLower (s : String) : String :=
  String.mk (s.toList.map Char.toLower)

/-- Embedding of Python's `s.startswith(pre)`. -/
def pyStartswith (pre s : String) : Bool :=
  List.isPrefixOf pre.toList s.toList

/-- Body of `parse_2fa_args` after the early return: the token list of
the split argument string is searched for the exact token `--2fa`
(Python `args_list.index("--2fa")`, whose failure raises `ValueError`),
the token after it is inspected (an absent one is Python's
`IndexError`, caught by the source and treated as method `auto`; one
starting with `--` is likewise treated as `auto` without being
consumed), the consumed tokens are deleted, and the rest is rejoined
with single spaces.  Mirrors src/duo2fa.py lines 481-503, including the
`.lower()` applied to the returned method. -/
def parse_2fa_tokens (args_list : List String) : Except PyErr (Option String × String) :=
  match List.indexOf? "--2fa" args_list with
  | none => .error .valueError
  | some twofa_position =>
    match args_list[twofa_position + 1]? with
    | none =>
      .ok (some (pyLower "auto"), pyJoin " " (args_list.eraseIdx twofa_position))
    | some next_tok =>
      if pyStartswith "--" next_tok then
        .ok (some (pyLower "auto"), pyJoin " " (args_list.eraseIdx twofa_position))
      else
        .ok (some (pyLower next_tok),
             pyJoin " " ((args_list.eraseIdx (twofa_position + 1)).eraseIdx twofa_position))

/-- Embedding of `Duo2fa.parse_2fa_args` (src/duo2fa.py lines 465-503).
The guard is Python's substring test `"--2fa" in args`; when it passes
but `--2fa` is not an exact space-delimited token of `args`,
`args_list.index("--2fa")` raises an uncaught `ValueError`.  The
`lru_cache` decoration is observationally transparent for a pure
function and is not modelled. -/
def parse_2fa_args (args : String) : Except PyErr (Option String × String) :=
  if strIn "--2fa" args = false then
    .ok (none, args)
  else
    parse_2fa_tokens (pySplit args)

/-- One network call performed by the filter: a Slack `users.info`
lookup inside `get_user_email`, a Duo preauth call, or a Duo step-up
auth call with its factor argument. -/
inductive NetCall where
  | resolveEmail (user_id : String)
  | preauthCall (email : String)
  | stepupCall (email : String) (factor : Option String)
  deriving DecidableEq, Repr

/-- Terminal decision of one filter invocation: `proceed cmd args`
embeds `return msg, cmd, args` and `block` embeds
`return None, None, None`. -/
inductive Outcome where
  | proceed (cmd : String) (args : String)
  | block
  deriving DecidableEq, Repr

/-- Observable result of one filter invocation: the decision, the texts
passed to `self.send`, and the network calls made, in order. -/
structure FilterTrace where
  outcome : Outcome
  sent : List String
  calls : List NetCall
  deriving DecidableEq, Repr

/-- Environment of one filter invocation: the persisted
`filtered_commands` registry, the bot backend mode, and the behavior of
the external collaborators during this invocation.  `api_call` models
Slack `users.info` (`some email` when the response is ok, `none`
otherwise); `preauth_user` models the memoized `self.preauth_user`
(`Except.error e` when the Duo client raises `RuntimeError e`);
`auth_user` models `self.auth_user`, whose `factor` argument is
whatever value the filter holds in `twofa_method`. -/
structure Env where
  filtered_commands : List String
  bot_mode : String
  api_call : String → Option String
  preauth_user : String → Except String (String × String)
  auth_user : String → Option String → Except String (String × String)

/-- Embedding of `Duo2fa.get_user_email` (src/duo2fa.py lines 408-436):
test mode returns a fixed address, slack mode queries `users.info` and
returns the literal `"Slack Error"` on a non-ok response, and any other
backend returns the literal `"Unsupported Backend"`.  The `lru_cache`
decoration is observationally transparent for a fixed environment and
is not modelled. -/
def get_user_email (env : Env) (user_id : String) : String :=
  if env.bot_mode = "test" then "test@test.com"
  else if env.bot_mode = "slack" then
    match env.api_call user_id with
    | some email => email
    | none => "Slack Error"
  else "Unsupported Backend"

/-- Message sent when a filtered command is issued without the `--2fa`
selector (src/duo2fa.py lines 274-277). -/
def no_selector_msg : String :=
  "This command requires Duo Two Factor. Rerun this command with --2fa.\nYou can specify your preferred 2fa method after --2fa like this `--2fa sms`. Just sending --2fa is the same as --2fa auto. Allowed 2fa Methods:\nauto\npush\nphone\nsms"

/-- Message sent when a Duo api call raises (src/duo2fa.py lines 303
and 344). -/
def duo_api_error_msg (err : String) : String :=
  "Fatal Error when talking to the Duo api " ++ err

/-- Message sent on a `deny` preauth verdict (src/duo2fa.py lines
313-314). -/
def preauth_deny_msg (message : String) : String :=
  "Error: You are not authorized to auth to Duo at this time. Please contact your Duo admin.\nDuo Error message: " ++ message

/-- Message sent on an `enroll` preauth verdict (src/duo2fa.py line
324). -/
def preauth_enroll_msg (user_email : String) : String :=
  "Error: You are not enrolled in Duo. Please contact your Duo admin.\nUser Email: " ++ user_email

/-- Message sent on a `deny` step-up verdict (src/duo2fa.py line
352). -/
def stepup_deny_msg (message : String) : String :=
  "Your Duo 2FA auth failed.\nError message: " ++ message

/-- Network calls made by a gated invocation that stops at preauth:
the e-mail resolution for the caller followed by the Duo preauth call
for the resolved address. -/
def calls_preauth (env : Env) (user_id : String) : List NetCall :=
  [NetCall.resolveEmail user_id, NetCall.preauthCall (get_user_email env user_id)]

/-- Network calls made by a gated invocation that goes on to step-up
auth with the given factor. -/
def calls_stepup (env : Env) (user_id : String) (twofa_method : Option String) : List NetCall :=
  calls_preauth env user_id ++ [NetCall.stepupCall (get_user_email env user_id) twofa_method]

/-- Embedding of the body of `duo2fa_filter` from the e-mail lookup
onward (src/duo2fa.py lines 282-360).  The unsupported-backend branch
calls `self.send(msg.to, test=..., in_reply_to=msg)` with the keyword
`test` instead of the required `text` parameter of `BotPlugin.send`,
so the call raises `TypeError` before the branch can return its block
decision; this is modelled as `Except.error PyErr.typeError`.  Every
other branch terminates in an explicit decision.  Verdict strings not
matched by any branch fall through to the final
`return None, None, None`. -/
def duo2fa_gate (env : Env) (user_id cmd args : String) (twofa_method : Option String) :
    Except PyErr FilterTrace :=
  if get_user_email env user_id = "Unsupported Backend" then
    .error .typeError
  else
    match env.preauth_user (get_user_email env user_id) with
    | .error err => .ok ⟨.block, [duo_api_error_msg err], calls_preauth env user_id⟩
    | .ok (user_preauth, message) =>
      if user_preauth = "deny" then
        .ok ⟨.block, [preauth_deny_msg message], calls_preauth env user_id⟩
      else if user_preauth = "enroll" then
        .ok ⟨.block, [preauth_enroll_msg (get_user_email env user_id)], calls_preauth env user_id⟩
      else if user_preauth = "allow" then
        .ok ⟨.proceed cmd args, [], calls_preauth env user_id⟩
      else if user_preauth = "auth" then
        match env.auth_user (get_user_email env user_id) twofa_method with
        | .error err =>
          .ok ⟨.block, [duo_api_error_msg err], calls_stepup env user_id twofa_method⟩
        | .ok (twofa_result, message2) =>
          if twofa_result = "deny" then
            .ok ⟨.block, [stepup_deny_msg message2], calls_stepup env user_id twofa_method⟩
          else if twofa_result = "allow" then
            .ok ⟨.proceed cmd args, [], calls_stepup env user_id twofa_method⟩
          else
            .ok ⟨.block, [], calls_stepup env user_id twofa_method⟩
      else
        .ok ⟨.block, [], calls_preauth env user_id⟩

/-- Embedding of `Duo2fa.duo2fa_filter` (src/duo2fa.py lines 234-360):
parse the selector out of the args (uncaught exceptions propagate),
short-circuit on `dry_run`, pass through commands that are not in the
`filtered_commands` registry, block with the instructional message when
no selector was supplied and `"--2fa "` is not in the stripped args
(when it is, the source falls through with `twofa_method = None`), and
otherwise run the preauth/step-up decision of `duo2fa_gate`. -/
def duo2fa_filter (env : Env) (user_id cmd args0 : String) (dry_run : Bool) :
    Except PyErr FilterTrace :=
  match parse_2fa_args args0 with
  | .error e => .error e
  | .ok (twofa_method, args) =>
    if dry_run then .ok ⟨.proceed cmd args, [], []⟩
    else if env.filtered_commands.contains cmd = false then .ok ⟨.proceed cmd args, [], []⟩
    else
      match twofa_method with
      | none =>
        if strIn "--2fa " args = false then .ok ⟨.block, [no_selector_msg], []⟩
        else duo2fa_gate env user_id cmd args none
      | some m => duo2fa_gate env user_id cmd args (some m)

/-- True iff the call list contains a Duo step-up auth call. -/
def hasStepup (calls : List NetCall) : Bool :=
  calls.any fun c =>
    match c with
    | .stepupCall _ _ => true
    | _ => false

/-- Memoization state of the `lru_cache(maxsize=4)` wrapper on
`preauth_user`: cached `(user_email, (result, status_msg))` pairs in
most-recently-used-first order. -/
abbrev PreauthCache := List (String × (String × String))

/-- Embedding of one call to the memoized `Duo2fa.preauth_user`
(src/duo2fa.py lines 438-450).  `provider n` is the outcome of the
`(n+1)`-st call to `duo_auth_api.preauth` (`Except.error e` when it
raises `RuntimeError e`); `calls` counts provider calls made so far.
Following CPython's `functools.lru_cache`: a hit returns the memoized
value without calling the provider and refreshes the entry's recency; a
miss calls the provider, and only a normal return is inserted (bounded
by the maxsize of 4) — a raised exception propagates and leaves the
cache untouched. -/
def preauth_user_step (provider : Nat → Except String (String × String))
    (calls : Nat) (cache : PreauthCache) (user_email : String) :
    Except String (String × String) × Nat × PreauthCache :=
  match cache.find? (fun p => p.1 == user_email) with
  | some p => (.ok p.2, calls, (user_email, p.2) :: cache.filter (fun q => !(q.1 == user_email)))
  | none =>
    match provider calls with
    | .error e => (.error e, calls + 1, cache)
    | .ok v => (.ok v, calls + 1, ((user_email, v) :: cache).take 4)

/-- Concrete witness environment: test backend, one filtered command,
preauth denies. -/
def envDeny : Env :=
  { filtered_commands := ["deploy"]
    bot_mode := "test"
    api_call := fun _ => none
    preauth_user := fun _ => .ok ("deny", "no way")
    auth_user := fun _ _ => .ok ("allow", "ok") }

/-- Concrete witness environment: a backend that is neither `test` nor
`slack`, so e-mail lookup is unsupported. -/
def envIrc : Env :=
  { filtered_commands := ["deploy"]
    bot_mode := "irc"
    api_call := fun _ => none
    preauth_user := fun _ => .ok ("allow", "ok")
    auth_user := fun _ _ => .ok ("allow", "ok") }

/-- Concrete witness environment: test backend, provider answers with a
verdict string outside the handled enumeration. -/
def envPass : Env :=
  { filtered_commands := ["deploy"]
    bot_mode := "test"
    api_call := fun _ => none
    preauth_user := fun _ => .ok ("pass", "x")
    auth_user := fun _ _ => .ok ("pass", "y") }

/-- Concrete witness environment: slack backend whose `users.info` call
answers non-ok for every user. -/
def envSlackErr : Env :=
  { filtered_commands := ["deploy"]
    bot_mode := "slack"
    api_call := fun _ => none
    preauth_user := fun _ => .ok ("auth", "m")
    auth_user := fun _ _ => .ok ("allow", "ok") }

/-- Concrete witness provider for the preauth cache: the first call to
`duo_auth_api.preauth` raises, every later call answers `allow`. -/
def provFail : Nat → Except String (String × String) :=
  fun n => if n = 0 then .error "Error raised" else .ok ("allow", "ok")

/-- Decision table of claim C1 for one gated invocation: conditioned
on the preauth (and, after `auth`, step-up) verdict obtained for the
resolved contact address, the filter's full trace is fixed —
`deny`/`enroll`/provider-failure block without a step-up call and with
the documented message, `allow` proceeds with the stripped args and no
step-up call, and `auth` followed by step-up `deny`/`allow`
blocks/proceeds. -/
def PreauthTable (env : Env) (user_id cmd args0 args m : String) : Prop :=
  (∀ pm, env.preauth_user (get_user_email env user_id) = .ok ("deny", pm) →
      duo2fa_filter env user_id cmd args0 false =
        .ok ⟨.block, [preauth_deny_msg pm], calls_preauth env user_id⟩ ∧
      strIn pm (preauth_deny_msg pm) = true ∧
      hasStepup (calls_preauth env user_id) = false) ∧
  (∀ pm, env.preauth_user (get_user_email env user_id) = .ok ("enroll", pm) →
      duo2fa_filter env user_id cmd args0 false =
        .ok ⟨.block, [preauth_enroll_msg (get_user_email env user_id)], calls_preauth env user_id⟩ ∧
      strIn (get_user_email env user_id) (preauth_enroll_msg (get_user_email env user_id)) = true ∧
      hasStepup (calls_preauth env user_id) = false) ∧
  (∀ pm, env.preauth_user (get_user_email env user_id) = .ok ("allow", pm) →
      duo2fa_filter env user_id cmd args0 false =
        .ok ⟨.proceed cmd args, [], calls_preauth env user_id⟩ ∧
      hasStepup (calls_preauth env user_id) = false) ∧
  (∀ pm am, env.preauth_user (get_user_email env user_id) = .ok ("auth", pm) →
      env.auth_user (get_user_email env user_id) (some m) = .ok ("deny", am) →
      duo2fa_filter env user_id cmd args0 false =
        .ok ⟨.block, [stepup_deny_msg am], calls_stepup env user_id (some m)⟩ ∧
      strIn am (stepup_deny_msg am) = true) ∧
  (∀ pm am, env.preauth_user (get_user_email env user_id) = .ok ("auth", pm) →
      env.auth_user (get_user_email env user_id) (some m) = .ok ("allow", am) →
      duo2fa_filter env user_id cmd args0 false =
        .ok ⟨.proceed cmd args, [], calls_stepup env user_id (some m)⟩) ∧
  (∀ err, env.preauth_user (get_user_email env user_id) = .error err →
      duo2fa_filter env user_id cmd args0 false =
        .ok ⟨.block, [duo_api_error_msg err], calls_preauth env user_id⟩ ∧
      hasStepup (calls_preauth env user_id) = false)

/-- Fail-closed conclusion of claim C2: a preauth verdict outside
`deny`/`enroll`/`allow`/`auth`, or a step-up verdict outside
`deny`/`allow`, makes the filter block (it never proceeds). -/
def FailClosed (env : Env) (user_id cmd args0 m : String) : Prop :=
  (∀ v pm, env.preauth_user (get_user_email env user_id) = .ok (v, pm) →
      v ≠ "deny" → v ≠ "enroll" → v ≠ "allow" → v ≠ "auth" →
      duo2fa_filter env user_id cmd args0 false =
        .ok ⟨.block, [], calls_preauth env user_id⟩) ∧
  (∀ pm w am, env.preauth_user (get_user_email env user_id) = .ok ("auth", pm) →
      env.auth_user (get_user_email env user_id) (some m) = .ok (w, am) →
      w ≠ "deny" → w ≠ "allow" →
      duo2fa_filter env user_id cmd args0 false =
        .ok ⟨.block, [], calls_stepup env user_id (some m)⟩)

/-- Transitivity of `List.isPrefixOf` on character lists. -/
theorem isPrefixOf_trans_char (a : List Char) :
    ∀ b c, List.isPrefixOf a b = true → List.isPrefixOf b c = true →
      List.isPrefixOf a c = true := by
  induction a with
  | nil => intro b c _ _; cases c <;> rfl
  | cons x xs ih =>
    intro b c h1 h2
    cases b with
    | nil => simp [List.isPrefixOf] at h1
    | cons y ys =>
      cases c with
      | nil => simp [List.isPrefixOf] at h2
      | cons z zs =>
        simp only [List.isPrefixOf, Bool.and_eq_true, beq_iff_eq] at h1 h2 ⊢
        exact ⟨h1.1.trans h2.1, ih ys zs h1.2 h2.2⟩

/-- A substring occurrence of `n2` yields one of any `n1` that is a
prefix of `n2`. -/
theorem substrIn_of_isPrefixOf (n1 n2 : List Char)
    (hpre : List.isPrefixOf n1 n2 = true) :
    ∀ hay, substrIn n2 hay = true → substrIn n1 hay = true := by
  intro hay
  induction hay with
  | nil =>
    intro h
    cases n2 with
    | nil =>
      cases n1 with
      | nil => rfl
      | cons x xs => simp [List.isPrefixOf] at hpre
    | cons y ys => simp [substrIn, List.isEmpty] at h
  | cons a t ih =>
    intro h
    simp only [substrIn, Bool.or_eq_true] at h ⊢
    rcases h with h | h
    · exact Or.inl (isPrefixOf_trans_char n1 n2 (a :: t) hpre h)
    · exact Or.inr (ih h)

/-- If `--2fa` is not a substring of `s` then neither is `--2fa `
(with the trailing space). -/
theorem strIn_2fa_space_of_not (s : String) (h : strIn "--2fa" s = false) :
    strIn "--2fa " s = false := by
  by_contra hc
  rw [Bool.not_eq_false] at hc
  have h2 : strIn "--2fa" s = true :=
    substrIn_of_isPrefixOf "--2fa".toList "--2fa ".toList (by decide) s.toList hc
  rw [h] at h2
  exact Bool.noConfusion h2

/-- The token-level branch of the parser never returns an empty
selector. -/
theorem parse_2fa_tokens_ne_none (l : List String) (args : String) :
    parse_2fa_tokens l ≠ .ok (none, args) := by
  unfold parse_2fa_tokens
  intro h
  split at h
  · exact Except.noConfusion h
  · split at h
    · simp at h
    · split at h <;> simp at h

/-- Inversion: a `(None, args)` result of the parser forces the input
to have been returned unchanged, with no `--2fa` substring in it. -/
theorem parse_2fa_args_none_inv (args0 args : String)
    (h : parse_2fa_args args0 = .ok (none, args)) :
    args = args0 ∧ strIn "--2fa" args0 = false := by
  unfold parse_2fa_args at h
  split at h
  · next hc =>
    simp only [Except.ok.injEq, Prod.mk.injEq, true_and] at h
    exact ⟨h.symm, hc⟩
  · exact absurd h (parse_2fa_tokens_ne_none _ _)

/-- C9: `parse_2fa_args` maps the six literal spec inputs to exactly
the listed `(method, remaining args)` pairs: a trailing `--2fa`
defaults to `auto` without consuming anything, a following `--flag` is
left untouched, and the method token is lower-cased while the other
text passes through. -/
theorem parse_2fa_args_table :
    parse_2fa_args "stuff" = .ok (none, "stuff") ∧
    parse_2fa_args "stuff --2fa" = .ok (some "auto", "stuff") ∧
    parse_2fa_args "stuff --2fa push" = .ok (some "push", "stuff") ∧
    parse_2fa_args "stuff --2fa SMS" = .ok (some "sms", "stuff") ∧
    parse_2fa_args "stuff --2fa push --otherflag" = .ok (some "push", "stuff --otherflag") ∧
    parse_2fa_args "stuff --2fa --otherflag stuff" = .ok (some "auto", "stuff --otherflag stuff") :=
  ⟨rfl, rfl, rfl, rfl, rfl, rfl⟩

/-- C8 counterexample: in `"--2fax"` the string `--2fa` does not occur
as a whitespace-delimited token, yet the parser does not return
`(None, args)` — the substring guard passes and `list.index` raises
`ValueError`. -/
theorem parse_2fa_args_no_token_counterexample :
    parse_2fa_args "--2fax" = .error .valueError ∧
    ∀ out, parse_2fa_args "--2fax" ≠ .ok out := by
  refine ⟨rfl, fun out h => ?_⟩
  rw [show parse_2fa_args "--2fax" = .error .valueError from rfl] at h
  exact Except.noConfusion h

/-- C8 (amended): for every args string in which `--2fa` does not occur
as a substring at all, `parse_2fa_args` returns `(None, args)` with the
string unchanged and does not raise; when `--2fa` occurs as a substring
but not as a space-delimited token, it raises `ValueError` instead. -/
theorem parse_2fa_args_absent (args : String) (h : strIn "--2fa" args = false) :
    parse_2fa_args args = .ok (none, args) := by
  unfold parse_2fa_args
  rw [h]
  rfl

/-- Closed instance of `parse_2fa_args_absent`. -/
theorem parse_2fa_args_absent_witness :
    strIn "--2fa" "stuff things" = false ∧
    parse_2fa_args "stuff things" = .ok (none, "stuff things") :=
  ⟨rfl, parse_2fa_args_absent "stuff things" rfl⟩

/-- C3: a filtered command issued without a selector (the parser
returned `None`), not in dry-run mode, blocks with the instructional
message — which names the four allowed methods — and performs no
network call at all. -/
theorem no_selector_blocks (env : Env) (user_id cmd args0 args : String)
    (hcmd : env.filtered_commands.contains cmd = true)
    (hparse : parse_2fa_args args0 = .ok (none, args)) :
    duo2fa_filter env user_id cmd args0 false = .ok ⟨.block, [no_selector_msg], []⟩ ∧
    strIn "auto" no_selector_msg = true ∧ strIn "push" no_selector_msg = true ∧
    strIn "phone" no_selector_msg = true ∧ strIn "sms" no_selector_msg = true := by
  obtain ⟨rfl, hno⟩ := parse_2fa_args_none_inv args0 args hparse
  have hsp := strIn_2fa_space_of_not _ hno
  have hmem : cmd ∈ env.filtered_commands := by simpa using hcmd
  refine ⟨?_, by decide, by decide, by decide, by decide⟩
  unfold duo2fa_filter
  rw [hparse]
  simp [hmem, hsp]

/-- Closed instance of `no_selector_blocks`. -/
theorem no_selector_blocks_witness :
    (envDeny.filtered_commands.contains "deploy" = true) ∧
    (parse_2fa_args "stuff" = .ok (none, "stuff")) ∧
    duo2fa_filter envDeny "u1" "deploy" "stuff" false = .ok ⟨.block, [no_selector_msg], []⟩ :=
  ⟨rfl, rfl, (no_selector_blocks envDeny "u1" "deploy" "stuff" "stuff" rfl rfl).1⟩

/-- Reflexivity of `List.isPrefixOf` on character lists. -/
theorem isPrefixOf_refl_char : ∀ l : List Char, List.isPrefixOf l l = true
  | [] => rfl
  | a :: t => by
    simp only [List.isPrefixOf, Bool.and_eq_true, beq_self_eq_true, true_and]
    exact isPrefixOf_refl_char t

/-- A list occurs as a substring of anything it suffixes. -/
theorem substrIn_append (l p : List Char) : substrIn l (p ++ l) = true := by
  induction p with
  | nil =>
    cases l with
    | nil => rfl
    | cons a t =>
      simp only [List.nil_append, substrIn, Bool.or_eq_true]
      exact Or.inl (isPrefixOf_refl_char (a :: t))
  | cons a p ih =>
    simp only [List.cons_append, substrIn, Bool.or_eq_true]
    exact Or.inr ih

/-- A string occurs as a substring of anything it suffixes. -/
theorem strIn_append (s p : String) : strIn s (p ++ s) = true := by
  have h : (p ++ s).toList = p.toList ++ s.toList := by
    cases p
    cases s
    rfl
  rw [strIn, h]
  exact substrIn_append s.toList p.toList

/-- C4 counterexample: with dry-run true and args `"--2fax"` (where
`--2fa` occurs as a substring but not as a token), the filter raises
`ValueError` out of the argument parser instead of proceeding. -/
theorem dry_run_raises_counterexample :
    duo2fa_filter envDeny "u1" "deploy" "--2fax" true = .error .valueError ∧
    ∀ t, duo2fa_filter envDeny "u1" "deploy" "--2fax" true ≠ .ok t := by
  refine ⟨rfl, fun t h => ?_⟩
  rw [show duo2fa_filter envDeny "u1" "deploy" "--2fax" true = .error .valueError from rfl] at h
  exact Except.noConfusion h

/-- C4 (amended): for every invocation with dry-run true on which the
argument parser returns normally, the filter proceeds with the parsed
args and performs no network call, for any command and caller. -/
theorem dry_run_proceeds (env : Env) (user_id cmd args0 : String)
    (m : Option String) (args : String)
    (hparse : parse_2fa_args args0 = .ok (m, args)) :
    duo2fa_filter env user_id cmd args0 true = .ok ⟨.proceed cmd args, [], []⟩ := by
  unfold duo2fa_filter
  rw [hparse]
  rfl

/-- Closed instance of `dry_run_proceeds`. -/
theorem dry_run_proceeds_witness :
    (parse_2fa_args "x --2fa" = .ok (some "auto", "x")) ∧
    duo2fa_filter envDeny "u1" "deploy" "x --2fa" true = .ok ⟨.proceed "deploy" "x", [], []⟩ :=
  ⟨rfl, dry_run_proceeds envDeny "u1" "deploy" "x --2fa" (some "auto") "x" rfl⟩

/-- C5 counterexample: on a command that is not in the registry, args
`"--2fax"` make the non-dry-run filter raise `ValueError` instead of
proceeding — refuting "for any args ... never raises". -/
theorem unfiltered_raises_counterexample :
    envDeny.filtered_commands.contains "echo" = false ∧
    duo2fa_filter envDeny "u1" "echo" "--2fax" false = .error .valueError ∧
    ∀ t, duo2fa_filter envDeny "u1" "echo" "--2fax" false ≠ .ok t := by
  refine ⟨rfl, rfl, fun t h => ?_⟩
  rw [show duo2fa_filter envDeny "u1" "echo" "--2fax" false = .error .valueError from rfl] at h
  exact Except.noConfusion h

/-- C5 (amended): for every command not in the registry on which the
argument parser returns normally, the non-dry-run filter proceeds with
the selector-stripped args, for any environment (hence regardless of
provider or resolver state). -/
theorem unfiltered_proceeds (env : Env) (user_id cmd args0 : String)
    (m : Option String) (args : String)
    (hcmd : env.filtered_commands.contains cmd = false)
    (hparse : parse_2fa_args args0 = .ok (m, args)) :
    duo2fa_filter env user_id cmd args0 false = .ok ⟨.proceed cmd args, [], []⟩ := by
  have hmem : cmd ∉ env.filtered_commands := by simpa using hcmd
  unfold duo2fa_filter
  rw [hparse]
  simp [hmem]

/-- Closed instance of `unfiltered_proceeds`. -/
theorem unfiltered_proceeds_witness :
    (envDeny.filtered_commands.contains "echo" = false) ∧
    (parse_2fa_args "x --2fa sms" = .ok (some "sms", "x")) ∧
    duo2fa_filter envDeny "u1" "echo" "x --2fa sms" false = .ok ⟨.proceed "echo" "x", [], []⟩ :=
  ⟨rfl, rfl, unfiltered_proceeds envDeny "u1" "echo" "x --2fa sms" (some "sms") "x" rfl rfl⟩

/-- C6: on an unsupported backend the e-mail lookup returns the
`"Unsupported Backend"` marker, and the gated invocation then raises
`TypeError` — the source calls `self.send` with the keyword `test`
instead of its required `text` parameter — instead of blocking with the
fatal-configuration message. -/
theorem unsupported_backend_raises :
    get_user_email envIrc "u1" = "Unsupported Backend" ∧
    duo2fa_filter envIrc "u1" "deploy" "x --2fa" false = .error .typeError :=
  ⟨rfl, rfl⟩

/-- The filter on a filtered command with a selector reduces to the
preauth/step-up gate on the stripped args. -/
theorem filter_eq_gate (env : Env) (user_id cmd args0 args m : String)
    (hcmd : env.filtered_commands.contains cmd = true)
    (hparse : parse_2fa_args args0 = .ok (some m, args)) :
    duo2fa_filter env user_id cmd args0 false = duo2fa_gate env user_id cmd args (some m) := by
  have hmem : cmd ∈ env.filtered_commands := by simpa using hcmd
  unfold duo2fa_filter
  rw [hparse]
  simp [hmem]

/-- C1: for every non-dry-run invocation of the filter on a filtered
command with a selector supplied, whose caller resolves to a contact
address, the decision follows the preauth/step-up table of
`PreauthTable`: `deny`, `enroll` and a preauth provider failure block
with the documented message and no step-up call, `allow` proceeds with
the stripped args and no step-up call, and `auth` followed by step-up
`deny`/`allow` blocks with the provider message/proceeds with the
stripped args. -/
theorem preauth_table_holds (env : Env) (user_id cmd args0 args m : String)
    (hcmd : env.filtered_commands.contains cmd = true)
    (hparse : parse_2fa_args args0 = .ok (some m, args))
    (hue : get_user_email env user_id ≠ "Unsupported Backend") :
    PreauthTable env user_id cmd args0 args m := by
  have hfilter := filter_eq_gate env user_id cmd args0 args m hcmd hparse
  refine ⟨?_, ?_, ?_, ?_, ?_, ?_⟩
  · intro pm hpre
    refine ⟨?_, strIn_append pm _, rfl⟩
    rw [hfilter]
    unfold duo2fa_gate
    rw [if_neg hue]
    simp only [hpre]
    rfl
  · intro pm hpre
    refine ⟨?_, strIn_append _ _, rfl⟩
    rw [hfilter]
    unfold duo2fa_gate
    rw [if_neg hue]
    simp only [hpre]
    rfl
  · intro pm hpre
    refine ⟨?_, rfl⟩
    rw [hfilter]
    unfold duo2fa_gate
    rw [if_neg hue]
    simp only [hpre]
    rfl
  · intro pm am hpre hauth
    refine ⟨?_, strIn_append am _⟩
    rw [hfilter]
    unfold duo2fa_gate
    rw [if_neg hue]
    simp only [hpre, hauth]
    rfl
  · intro pm am hpre hauth
    rw [hfilter]
    unfold duo2fa_gate
    rw [if_neg hue]
    simp only [hpre, hauth]
    rfl
  · intro err hpre
    refine ⟨?_, rfl⟩
    rw [hfilter]
    unfold duo2fa_gate
    rw [if_neg hue]
    simp only [hpre]

/-- Closed instance of `preauth_table_holds` at the `deny` row. -/
theorem preauth_table_holds_witness :
    (envDeny.filtered_commands.contains "deploy" = true) ∧
    (parse_2fa_args "x --2fa" = .ok (some "auto", "x")) ∧
    (get_user_email envDeny "u1" ≠ "Unsupported Backend") ∧
    duo2fa_filter envDeny "u1" "deploy" "x --2fa" false =
      .ok ⟨.block, [preauth_deny_msg "no way"], calls_preauth envDeny "u1"⟩ :=
  ⟨rfl, rfl, by decide,
   ((preauth_table_holds envDeny "u1" "deploy" "x --2fa" "x" "auto" rfl rfl
     (by decide)).1 "no way" rfl).1⟩

/-- C2: for every gated invocation that reaches a provider verdict, a
preauth verdict outside the four handled values, or a step-up verdict
outside the two handled values, makes the filter block — it never
proceeds (fail closed). -/
theorem fail_closed (env : Env) (user_id cmd args0 args m : String)
    (hcmd : env.filtered_commands.contains cmd = true)
    (hparse : parse_2fa_args args0 = .ok (some m, args))
    (hue : get_user_email env user_id ≠ "Unsupported Backend") :
    FailClosed env user_id cmd args0 m := by
  have hfilter := filter_eq_gate env user_id cmd args0 args m hcmd hparse
  constructor
  · intro v pm hpre hv1 hv2 hv3 hv4
    rw [hfilter]
    unfold duo2fa_gate
    rw [if_neg hue]
    simp only [hpre]
    rw [if_neg hv1, if_neg hv2, if_neg hv3, if_neg hv4]
  · intro pm w am hpre hauth hw1 hw2
    rw [hfilter]
    unfold duo2fa_gate
    rw [if_neg hue]
    simp only [hpre, hauth]
    rw [if_neg hw1, if_neg hw2]
    rfl

/-- Closed instance of `fail_closed` at an unrecognized preauth
verdict. -/
theorem fail_closed_witness :
    (envPass.filtered_commands.contains "deploy" = true) ∧
    (parse_2fa_args "x --2fa" = .ok (some "auto", "x")) ∧
    (envPass.preauth_user (get_user_email envPass "u1") = .ok ("pass", "x")) ∧
    duo2fa_filter envPass "u1" "deploy" "x --2fa" false =
      .ok ⟨.block, [], calls_preauth envPass "u1"⟩ :=
  ⟨rfl, rfl, rfl,
   (fail_closed envPass "u1" "deploy" "x --2fa" "x" "auto" rfl rfl (by decide)).1
     "pass" "x" rfl (by decide) (by decide) (by decide) (by decide)⟩

/-- C7: with the looked-up address absent from the preauth cache, a
provider failure propagates with the cache left untouched and the next
query for the same address invokes the provider again (the call
counter advances), while a successful verdict is memoized — later
queries return it without any provider call. -/
theorem preauth_failure_not_cached (provider : Nat → Except String (String × String))
    (cache : PreauthCache) (user_email : String)
    (hmiss : cache.find? (fun p => p.1 == user_email) = none) :
    (∀ e, provider 0 = .error e →
      preauth_user_step provider 0 cache user_email = (.error e, 1, cache) ∧
      (preauth_user_step provider 1 cache user_email).2.1 = 2) ∧
    (∀ v, provider 0 = .ok v →
      preauth_user_step provider 0 cache user_email =
        (.ok v, 1, ((user_email, v) :: cache).take 4) ∧
      ∀ n, (preauth_user_step provider n (((user_email, v) :: cache).take 4) user_email).1 =
            .ok v ∧
           (preauth_user_step provider n (((user_email, v) :: cache).take 4) user_email).2.1 =
            n) := by
  constructor
  · intro e he
    constructor
    · unfold preauth_user_step
      rw [hmiss, he]
    · unfold preauth_user_step
      rw [hmiss]
      cases h1 : provider 1 <;> rfl
  · intro v hv
    have hfind : (((user_email, v) :: cache).take 4).find? (fun p => p.1 == user_email) =
        some (user_email, v) := by
      rw [show ((user_email, v) :: cache).take 4 = (user_email, v) :: cache.take 3 from rfl]
      simp [List.find?]
    constructor
    · unfold preauth_user_step
      rw [hmiss, hv]
    · intro n
      constructor <;> (unfold preauth_user_step; rw [hfind])

/-- Closed instance of `preauth_failure_not_cached`: after a failing
first call the cache is unchanged and the second call reaches the
provider again. -/
theorem preauth_failure_not_cached_witness :
    (List.find? (fun p => p.1 == "test@test.com") ([] : PreauthCache) = none) ∧
    preauth_user_step provFail 0 [] "test@test.com" = (.error "Error raised", 1, []) ∧
    (preauth_user_step provFail 1 [] "test@test.com").2.1 = 2 :=
  ⟨rfl,
   ((preauth_failure_not_cached provFail [] "test@test.com" rfl).1 "Error raised" rfl).1,
   ((preauth_failure_not_cached provFail [] "test@test.com" rfl).1 "Error raised" rfl).2⟩

/-- C10: in slack mode with a non-ok `users.info` response, the e-mail
lookup returns the literal `"Slack Error"`, and the gated invocation is
not blocked or special-cased on it — the only identity check is against
`"Unsupported Backend"` — so it continues to the Duo preauth call with
`"Slack Error"` as the queried contact address. -/
theorem slack_error_reaches_preauth (env : Env) (user_id cmd args0 args m : String)
    (hmode : env.bot_mode = "slack") (hapi : env.api_call user_id = none)
    (hcmd : env.filtered_commands.contains cmd = true)
    (hparse : parse_2fa_args args0 = .ok (some m, args)) :
    get_user_email env user_id = "Slack Error" ∧
    ∃ t, duo2fa_filter env user_id cmd args0 false = .ok t ∧
      NetCall.preauthCall "Slack Error" ∈ t.calls := by
  have hue : get_user_email env user_id = "Slack Error" := by
    unfold get_user_email
    rw [hmode]
    simp [hapi]
  refine ⟨hue, ?_⟩
  rw [filter_eq_gate env user_id cmd args0 args m hcmd hparse]
  unfold duo2fa_gate
  have hcp : calls_preauth env user_id =
      [NetCall.resolveEmail user_id, NetCall.preauthCall "Slack Error"] := by
    rw [calls_preauth, hue]
  have hcs : calls_stepup env user_id (some m) =
      [NetCall.resolveEmail user_id, NetCall.preauthCall "Slack Error",
       NetCall.stepupCall "Slack Error" (some m)] := by
    rw [calls_stepup, hcp, hue]
    rfl
  rw [hue]
  rw [if_neg (by decide : ¬("Slack Error" = "Unsupported Backend"))]
  rcases hp : env.preauth_user "Slack Error" with e | ⟨v, msg⟩ <;> simp only [hp]
  · exact ⟨_, rfl, by rw [hcp]; simp⟩
  · by_cases h1 : v = "deny"
    · rw [if_pos h1]
      exact ⟨_, rfl, by rw [hcp]; simp⟩
    · rw [if_neg h1]
      by_cases h2 : v = "enroll"
      · rw [if_pos h2]
        exact ⟨_, rfl, by rw [hcp]; simp⟩
      · rw [if_neg h2]
        by_cases h3 : v = "allow"
        · rw [if_pos h3]
          exact ⟨_, rfl, by rw [hcp]; simp⟩
        · rw [if_neg h3]
          by_cases h4 : v = "auth"
          · rw [if_pos h4]
            rcases ha : env.auth_user "Slack Error" (some m) with e2 | ⟨w, am⟩ <;>
              simp only [ha]
            · exact ⟨_, rfl, by rw [hcs]; simp⟩
            · by_cases h5 : w = "deny"
              · rw [if_pos h5]
                exact ⟨_, rfl, by rw [hcs]; simp⟩
              · rw [if_neg h5]
                by_cases h6 : w = "allow"
                · rw [if_pos h6]
                  exact ⟨_, rfl, by rw [hcs]; simp⟩
                · rw [if_neg h6]
                  exact ⟨_, rfl, by rw [hcs]; simp⟩
          · rw [if_neg h4]
            exact ⟨_, rfl, by rw [hcp]; simp⟩

/-- Closed instance of `slack_error_reaches_preauth`. -/
theorem slack_error_reaches_preauth_witness :
    (envSlackErr.bot_mode = "slack") ∧
    (envSlackErr.api_call "u1" = none) ∧
    (envSlackErr.filtered_commands.contains "deploy" = true) ∧
    (parse_2fa_args "x --2fa" = .ok (some "auto", "x")) ∧
    get_user_email envSlackErr "u1" = "Slack Error" ∧
    (∃ t, duo2fa_filter envSlackErr "u1" "deploy" "x --2fa" false = .ok t ∧
      NetCall.preauthCall "Slack Error" ∈ t.calls) :=
  ⟨rfl, rfl, rfl, rfl,
   (slack_error_reaches_preauth envSlackErr "u1" "deploy" "x --2fa" "x" "auto"
     rfl rfl rfl rfl).1,
   (slack_error_reaches_preauth envSlackErr "u1" "deploy" "x --2fa" "x" "auto"
     rfl rfl rfl rfl).2⟩

end Duo2fa
